import Mathlib

/-!
Shallow embedding of the Import Cost Resolution Engine of the
`jpcar_calc_bot` repository: the tariff calculator
(`src/services/calculator.ts`) and the currency-rate resolver
(`src/services/currencyService.ts`, ATB variant).

JavaScript numbers are modelled as exact rationals (`ℚ`); a JS value that
may be `NaN` is modelled by the inductive `JSNum`.  `Math.round` is
floor​(x + 1/2), matching JS semantics.  Fallible code returns `Except` /
`Option` mirroring `throw` / `null`.
-/

/-- A JavaScript number: either an actual (finite) numeric value or `NaN`.
(`Infinity` never arises in the embedded code paths.) -/
inductive JSNum where
  | num (q : ℚ)
  | nan
deriving DecidableEq, Repr

/-- JS truthiness of a number value: `0` and `NaN` are falsy. -/
def JSNum.falsy : JSNum → Bool
  | .num q => q == 0
  | .nan => true

/-- JS `Math.round`: round half up, i.e. `⌊x + 1/2⌋`. -/
def jsRound (q : ℚ) : ℤ := ⌊q + 1/2⌋

/-- `type SupportedCurrency = "JPY" | "USD" | "EUR" | "RUB"`. -/
inductive SupportedCurrency where
  | JPY
  | USD
  | EUR
  | RUB
deriving DecidableEq, Repr

/-- The currency code as the string used in the source. -/
def SupportedCurrency.code : SupportedCurrency → String
  | .JPY => "JPY"
  | .USD => "USD"
  | .EUR => "EUR"
  | .RUB => "RUB"

/-- `interface CurrencyRates { [code: string]: number }` restricted to the
four supported codes (the only keys the engine ever reads or writes).
`none` models an absent key; `some v` a present JS number `v`. -/
structure CurrencyRates where
  JPY : Option JSNum
  USD : Option JSNum
  EUR : Option JSNum
  RUB : Option JSNum
deriving DecidableEq, Repr

/-- `rates[currency]` lookup. -/
def CurrencyRates.get (r : CurrencyRates) : SupportedCurrency → Option JSNum
  | .JPY => r.JPY
  | .USD => r.USD
  | .EUR => r.EUR
  | .RUB => r.RUB

/-- `convertToRub(amount, currency, rates)`: `const rate = rates[currency];
if (!rate) throw new Error(...); return amount * rate;`  (`!rate` is true
for an absent key, `0` and `NaN`). -/
def convertToRub (amount : ℚ) (currency : SupportedCurrency)
    (rates : CurrencyRates) : Except String ℚ :=
  match rates.get currency with
  | some (.num r) =>
      if r == 0 then .error ("Unsupported currency " ++ currency.code)
      else .ok (amount * r)
  | _ => .error ("Unsupported currency " ++ currency.code)

/-- `hasAll(rates)`: all four codes present and truthy. -/
def hasAll (r : CurrencyRates) : Bool :=
  !(r.JPY.elim true JSNum.falsy) && !(r.USD.elim true JSNum.falsy) &&
  !(r.EUR.elim true JSNum.falsy) && !(r.RUB.elim true JSNum.falsy)

/-- `mapToObject`: Mongoose-Map-to-plain-object conversion.  On the cache
contents the engine itself persists (already plain numeric rates) it is the
identity, which is how it is modelled here. -/
def mapToObject (m : CurrencyRates) : CurrencyRates := m

/-- `type AgeCategory = "under3" | "3to5" | "over5"` (3to5 ↦ `threeTo5`). -/
inductive AgeCategory where
  | under3
  | threeTo5
  | over5
deriving DecidableEq, Repr

/-- `type EngineCategory = "ICE" | "EV"`. -/
inductive EngineCategory where
  | ICE
  | EV
deriving DecidableEq, Repr

/-- `interface CalculationInput`. -/
structure CalculationInput where
  price : ℚ
  currency : SupportedCurrency
  age : AgeCategory
  engineType : EngineCategory
  engineVolume : ℚ
  horsepower : ℚ
deriving DecidableEq, Repr

/-- `interface DeliveryConfigDoc` (the six numeric fields used by
`calcDelivery`). -/
structure DeliveryConfigDoc where
  jpExpensesYen : ℚ
  freightUsd : ℚ
  ruProcessingMinRub : ℚ
  ruProcessingMaxRub : ℚ
  companyFeeMinRub : ℚ
  companyFeeMaxRub : ℚ
deriving DecidableEq, Repr

/-- The record returned by `calcDelivery`. -/
structure DeliveryDetails where
  totalMin : ℚ
  totalMax : ℚ
  jpExpensesRub : ℚ
  freightRub : ℚ
  ruProcessingMinRub : ℚ
  ruProcessingMaxRub : ℚ
  companyFeeMinRub : ℚ
  companyFeeMaxRub : ℚ
deriving DecidableEq, Repr

/-- The `breakdown` record of `CalculationResult`. -/
structure CalculationBreakdown where
  priceRub : ℚ
  dutyRub : ℚ
  dutyEur : ℚ
  feeRub : ℚ
  recyclingRub : ℚ
  deliveryTotalRub : ℚ
  deliveryDetails : DeliveryDetails
deriving DecidableEq, Repr

/-- `interface CalculationResult`. -/
structure CalculationResult where
  total : ℚ
  breakdown : CalculationBreakdown
deriving DecidableEq, Repr

/-- `const BASE_UTILIZATION = 20_000`. -/
def BASE_UTILIZATION : ℚ := 20000

/-- `calcDutyEur(engineVolume)`: six-bucket per-cm³ duty table. -/
def calcDutyEur (engineVolume : ℚ) : ℚ :=
  if engineVolume ≤ 1000 then 1.5 * engineVolume
  else if engineVolume ≤ 1500 then 1.7 * engineVolume
  else if engineVolume ≤ 1800 then 2.5 * engineVolume
  else if engineVolume ≤ 2300 then 2.7 * engineVolume
  else if engineVolume ≤ 3000 then 3.0 * engineVolume
  else 3.6 * engineVolume

/-- `calcCustomsFee(declaredValueRub)`: seven-bracket customs fee. -/
def calcCustomsFee (declaredValueRub : ℚ) : ℚ :=
  if declaredValueRub ≤ 200000 then 1067
  else if declaredValueRub ≤ 450000 then 2134
  else if declaredValueRub ≤ 1200000 then 4269
  else if declaredValueRub ≤ 2700000 then 11746
  else if declaredValueRub ≤ 5000000 then 23491
  else if declaredValueRub ≤ 10000000 then 46982
  else 93965

/-- Parameter record of `calculateUtilFee`. -/
structure UtilFeeParams where
  ageYears : ℚ
  powerHp : ℚ
  engineVolumeCc : ℚ
  personalUse : Bool
deriving DecidableEq, Repr

/-- `calculateUtilFee(params)`: recycling ("utilization") fee.  The
`!personalUse` branch in the source is an empty TODO and changes nothing. -/
def calculateUtilFee (params : UtilFeeParams) : ℚ :=
  if params.powerHp ≤ 160 then
    if params.ageYears ≤ 3 then 3400 else 5200
  else if params.engineVolumeCc ≤ 2000 ∧ params.ageYears > 3 then
    (jsRound (BASE_UTILIZATION * 62.2) : ℚ)
  else if params.engineVolumeCc ≤ 2000 ∧ params.ageYears ≤ 3 then
    (jsRound (BASE_UTILIZATION * 37.5) : ℚ)
  else
    (jsRound (BASE_UTILIZATION * 62.2) : ℚ)

/-- `ageCategoryToYears(age)`. -/
def ageCategoryToYears : AgeCategory → ℚ
  | .under3 => 3
  | .threeTo5 => 4
  | .over5 => 6

/-- `calcDelivery(config, rates)` (a thrown conversion error propagates,
written as explicit matches). -/
def calcDelivery (config : DeliveryConfigDoc) (rates : CurrencyRates) :
    Except String DeliveryDetails :=
  match convertToRub config.jpExpensesYen .JPY rates with
  | .error e => .error e
  | .ok jpExpensesRub =>
    match convertToRub config.freightUsd .USD rates with
    | .error e => .error e
    | .ok freightRub =>
      .ok { totalMin := jpExpensesRub + freightRub +
                        config.ruProcessingMinRub + config.companyFeeMinRub
            totalMax := jpExpensesRub + freightRub +
                        config.ruProcessingMaxRub + config.companyFeeMaxRub
            jpExpensesRub, freightRub
            ruProcessingMinRub := config.ruProcessingMinRub
            ruProcessingMaxRub := config.ruProcessingMaxRub
            companyFeeMinRub := config.companyFeeMinRub
            companyFeeMaxRub := config.companyFeeMaxRub }

/-- `calculate(input, rates, deliveryConfig)` (thrown errors propagate,
written as explicit matches). -/
def calculate (input : CalculationInput) (rates : CurrencyRates)
    (deliveryConfig : DeliveryConfigDoc) : Except String CalculationResult :=
  if input.age ≠ .threeTo5 then
    .error "Расчет пока поддерживает только авто 3–5 лет."
  else
    match convertToRub input.price input.currency rates with
    | .error e => .error e
    | .ok priceRub =>
      match convertToRub (calcDutyEur input.engineVolume) .EUR rates with
      | .error e => .error e
      | .ok dutyRub =>
        match calcDelivery deliveryConfig rates with
        | .error e => .error e
        | .ok deliveryDetails =>
          .ok { total := priceRub + dutyRub + calcCustomsFee priceRub +
                         calculateUtilFee
                           { ageYears := ageCategoryToYears input.age
                             powerHp := input.horsepower
                             engineVolumeCc := input.engineVolume
                             personalUse := true } +
                         (deliveryDetails.totalMin + deliveryDetails.totalMax) / 2
                breakdown := { priceRub, dutyRub
                               dutyEur := calcDutyEur input.engineVolume
                               feeRub := calcCustomsFee priceRub
                               recyclingRub := calculateUtilFee
                                 { ageYears := ageCategoryToYears input.age
                                   powerHp := input.horsepower
                                   engineVolumeCc := input.engineVolume
                                   personalUse := true }
                               deliveryTotalRub := (deliveryDetails.totalMin +
                                                    deliveryDetails.totalMax) / 2
                               deliveryDetails } }

/-!
String machinery for the rate-document parsing in `currencyService.ts`.
JS strings are modelled as `String`/`List Char`; `String.prototype.indexOf`
as `findSub`/`findSubFrom`.  The two regular expressions of the source are
embedded as explicit leftmost-match scanners with lazy gaps resolved to
"first occurrence of the next anchor": this coincides with the JS regex
semantics on every document for which the first occurrence of each anchor
is followed by the required digits (true of all documents analysed below;
JS would otherwise backtrack to a later anchor occurrence).  The `i` flag
is embedded as exact-case matching; every document considered uses the
canonical case of the source literals.
-/

/-- JS whitespace (`\s`) for the characters that can occur here. -/
def isJsWs (c : Char) : Bool :=
  c == ' ' || c == '\t' || c == '\n' || c == '\r'

/-- Character class `[\d.,]` of the rate-value captures. -/
def isNumChar (c : Char) : Bool :=
  c.isDigit || c == '.' || c == ','

/-- Index of the first occurrence of `pat` in `hay` (JS `indexOf`). -/
def findSub (hay : List Char) (pat : List Char) : Option Nat :=
  match hay with
  | [] => if pat.isPrefixOf ([] : List Char) then some 0 else none
  | c :: t =>
    if pat.isPrefixOf (c :: t) then some 0
    else (findSub t pat).map (· + 1)

/-- JS `indexOf(pat, start)`: first occurrence at or after `start`. -/
def findSubFrom (hay pat : List Char) (start : Nat) : Option Nat :=
  (findSub (hay.drop start) pat).map (· + start)

/-- The suffix of `hay` just after the first occurrence of `pat`. -/
def afterSub (hay pat : List Char) : Option (List Char) :=
  (findSub hay pat).map (fun i => hay.drop (i + pat.length))

/-- Drop a literal that must occur right here, else fail. -/
def dropLit (l pat : List Char) : Option (List Char) :=
  if pat.isPrefixOf l then some (l.drop pat.length) else none

/-- Skip leading JS whitespace (`\s*`). -/
def skipWs : List Char → List Char
  | [] => []
  | c :: t => if isJsWs c then skipWs t else c :: t

/-- Greedy run of `[\d.,]` characters and the remainder. -/
def takeNumRun : List Char → List Char × List Char
  | [] => ([], [])
  | c :: t =>
    if isNumChar c then
      let (run, rest) := takeNumRun t
      (c :: run, rest)
    else ([], c :: t)

/-- `s.replace(",", ".")`: JS replaces only the first occurrence. -/
def replaceFirstComma : List Char → List Char
  | [] => []
  | c :: t => if c == ',' then '.' :: t else c :: replaceFirstComma t

/-- `s.replace(/\s+/g, "")`: strip all whitespace. -/
def stripWs (l : List Char) : List Char := l.filter (fun c => !isJsWs c)

/-- Decimal value of a digit string; `none` on a non-digit; `[]` ↦ `0`. -/
def digitsValue (l : List Char) : Option Nat :=
  l.foldl (fun acc c =>
    acc.bind (fun v => if c.isDigit then some (v * 10 + (c.toNat - 48)) else none))
    (some 0)

/-- Split at the first `'.'`: the part before and, if a dot exists, after. -/
def splitOnDot : List Char → List Char × Option (List Char)
  | [] => ([], none)
  | c :: t =>
    if c == '.' then ([], some t)
    else
      let (a, b) := splitOnDot t
      (c :: a, b)

/-- JS `Number(s)` for `s` drawn from `[\d.,]+` after the first comma has
been turned into a dot: a surviving comma, a second dot, or a lone dot give
`NaN` (`none`); otherwise the exact decimal value. -/
def jsDecimalNum (l : List Char) : Option ℚ :=
  if l.contains ',' then none
  else
    match splitOnDot l with
    | (intPart, none) => (digitsValue intPart).map (fun v => (v : ℚ))
    | (intPart, some fracPart) =>
      if fracPart.contains '.' then none
      else if intPart.isEmpty && fracPart.isEmpty then none
      else
        match digitsValue intPart, digitsValue fracPart with
        | some i, some f => some ((i : ℚ) + (f : ℚ) / (10 : ℚ) ^ fracPart.length)
        | _, _ => none

/-- `sliceTab(html, id)`: from the first `id="<id>"` to the next
`currency-tabs__item`; the whole document when the id is absent. -/
def sliceTab (html : String) (id : String) : String :=
  let h := html.toList
  match findSub h ("id=\"" ++ id ++ "\"").toList with
  | none => html
  | some start =>
    match findSubFrom h "currency-tabs__item".toList (start + 1) with
    | none => ⟨h.drop start⟩
    | some next => ⟨(h.take next).drop start⟩

/-- `parseSaleFromBlock(block, currency)`: the embedded
`<div class="currency-table__val">CUR</div> … покупка … (buy) … продажа …
(sale)` regex; returns the sale value, `null` on no match or a non-finite
number. -/
def parseSaleFromBlock (block : String) (currency : String) : Option ℚ :=
  let valDiv := ("<div class=\"currency-table__val\">" ++ currency ++ "</div>").toList
  let buyHead := "<div class=\"currency-table__head\">покупка</div>".toList
  let sellHead := "<div class=\"currency-table__head\">продажа</div>".toList
  match afterSub block.toList valDiv with
  | none => none
  | some r1 =>
    match afterSub r1 buyHead with
    | none => none
    | some r2 =>
      let (buyRun, r3) := takeNumRun (skipWs r2)
      if buyRun.isEmpty then none
      else
        match afterSub r3 sellHead with
        | none => none
        | some r4 =>
          let (saleRun, _) := takeNumRun (skipWs r4)
          if saleRun.isEmpty then none
          else jsDecimalNum (replaceFirstComma (stripWs saleRun))

/-- The `extract` closure of `parseHiddenInputs`: the embedded
`name="<nm>"\s+value="([\d.,]+)"` regex; `none` when the pattern is absent,
`some .nan` when the captured text is not a number (no finiteness check in
the source here). -/
def extractHidden (html : String) (nm : String) : Option JSNum :=
  match afterSub html.toList ("name=\"" ++ nm ++ "\"").toList with
  | none => none
  | some r =>
    match r with
    | [] => none
    | c :: _ =>
      if !isJsWs c then none
      else
        match dropLit (skipWs r) "value=\"".toList with
        | none => none
        | some r2 =>
          let (run, rest) := takeNumRun r2
          if run.isEmpty then none
          else
            match rest with
            | '"' :: _ =>
              some (match jsDecimalNum (replaceFirstComma run) with
                    | some q => JSNum.num q
                    | none => JSNum.nan)
            | _ => none

/-- `parseHiddenInputs(html)`: tertiary strategy over hidden form inputs
(`usd2`/`usd1`, `eur2`/`eur1`, `jpy2`/`jpy1`, second name preferred).  The
JPY value is divided by 100 when above 5 (quoted per 100 ¥). -/
def parseHiddenInputs (html : String) : Option CurrencyRates :=
  match (extractHidden html "usd2").orElse fun _ => extractHidden html "usd1",
        (extractHidden html "eur2").orElse fun _ => extractHidden html "eur1",
        (extractHidden html "jpy2").orElse fun _ => extractHidden html "jpy1" with
  | some u, some e, some j =>
    if u.falsy || e.falsy || j.falsy then none
    else
      some { JPY := some (match j with
                          | .num q => if q > 5 then JSNum.num (q / 100) else JSNum.num q
                          | .nan => JSNum.nan)
             USD := some u, EUR := some e, RUB := some (.num 1) }
  | _, _, _ => none

/-- The shared fall-through of `parseAtbRates`: hidden inputs, else throw. -/
def atbHiddenFallback (html : String) : Except String CurrencyRates :=
  match parseHiddenInputs html with
  | some hidden => .ok hidden
  | none => .error "ATB transfer rates not found or malformed"

/-- `parseAtbRates(html)`: primary strategy on the `currencyTab4` slice
(sale values; JPY per 100 ¥ divided by 100), falling back to hidden
inputs; throws when both fail.  The `if (usdSale && eurSale &&
jpySalePer100)` truthiness guard also rejects a parsed `0`. -/
def parseAtbRates (html : String) : Except String CurrencyRates :=
  match parseSaleFromBlock (sliceTab html "currencyTab4") "USD",
        parseSaleFromBlock (sliceTab html "currencyTab4") "EUR",
        parseSaleFromBlock (sliceTab html "currencyTab4") "JPY" with
  | some u, some e, some j =>
    if u == 0 || e == 0 || j == 0 then atbHiddenFallback html
    else
      .ok { JPY := some (.num (j / 100)), USD := some (.num u),
            EUR := some (.num e), RUB := some (.num 1) }
  | _, _, _ => atbHiddenFallback html

/-- Outcome of the one network fetch in `getRates`: `!response.ok`, or the
fetched document text. -/
inductive FetchOutcome where
  | failure (statusText : String)
  | success (html : String)
deriving DecidableEq, Repr

deriving instance DecidableEq for Except

/-- Observable outcome of one `getRates` call: its returned value or
thrown error, the cache entry for today afterwards, whether the network
fetch line was reached, and whether the cache upsert was performed. -/
structure GetRatesOutcome where
  result : Except String CurrencyRates
  cacheAfter : Option CurrencyRates
  fetched : Bool
  wrote : Bool
deriving DecidableEq, Repr

/-- The fetch-and-parse tail of `getRates` (everything after the cache-hit
check): transport failure throws; a parsed snapshot is persisted and
returned; on a parse error any cached snapshot for today is returned,
else the error propagates. -/
def getRatesFetch (cached : Option CurrencyRates) (fetch : FetchOutcome) :
    GetRatesOutcome :=
  match fetch with
  | .failure statusText =>
    { result := .error ("Failed to fetch rates: " ++ statusText)
      cacheAfter := cached, fetched := true, wrote := false }
  | .success html =>
    match parseAtbRates html with
    | .ok rates =>
      { result := .ok rates, cacheAfter := some rates
        fetched := true, wrote := true }
    | .error e =>
      match cached with
      | some c =>
        { result := .ok (mapToObject c), cacheAfter := some c
          fetched := true, wrote := false }
      | none =>
        { result := .error e, cacheAfter := none
          fetched := true, wrote := false }

/-- `getRates()` for a fixed calendar day: `cached` is the stored snapshot
for today (if any), `fetch` the outcome the network would produce.  A
complete cached snapshot is returned without fetching; otherwise the
fetch-and-parse tail runs. -/
def getRates (cached : Option CurrencyRates) (fetch : FetchOutcome) :
    GetRatesOutcome :=
  match cached with
  | some c =>
    if hasAll (mapToObject c) then
      { result := .ok (mapToObject c), cacheAfter := some c
        fetched := false, wrote := false }
    else getRatesFetch cached fetch
  | none => getRatesFetch none fetch

/-- `rates` with the entry at one code removed (used to compare a zero/NaN
entry against an absent one). -/
def maskCode (r : CurrencyRates) : SupportedCurrency → CurrencyRates
  | .JPY => { r with JPY := none }
  | .USD => { r with USD := none }
  | .EUR => { r with EUR := none }
  | .RUB => { r with RUB := none }

/-! ## Concrete documents and sample data -/

/-- One rate-table row in the ATB HTML shape the primary regex matches. -/
def atbRow (c buy sale : String) : String :=
  "<div class=\"currency-table__val\">" ++ c ++
  "</div><div class=\"currency-table__head\">покупка</div>" ++ buy ++
  "<div class=\"currency-table__head\">продажа</div>" ++ sale

/-- A complete three-currency rate table (sale rates 81,50 / 94,30 / 53,20). -/
def atbTable : String :=
  atbRow "USD" "79,10" "81,50" ++ atbRow "EUR" "92,00" "94,30" ++
  atbRow "JPY" "52,10" "53,20"

/-- A document whose first `currencyTab4` occurrence is followed by the
complete table. -/
def docGood : String := "id=\"currencyTab4\"" ++ atbTable

/-- The snapshot extracted from `atbTable`'s sale column
(JPY 53,20 per 100 ¥ ↦ 0.532). -/
def ratesGood : CurrencyRates :=
  { JPY := some (.num (133/250)), USD := some (.num (163/2)),
    EUR := some (.num (943/10)), RUB := some (.num 1) }

/-- A document where the first `currencyTab4` occurrence has no table and
a tab marker separates it from a second occurrence that has the table. -/
def docTwoTabs : String :=
  "id=\"currencyTab4\" promo currency-tabs__item " ++ docGood

/-- A document whose complete table sits only under a legacy tab label. -/
def docLegacy : String := "id=\"currencyTab1\"" ++ atbTable

/-- The primary label with no table, then a tab marker, then the legacy
section with the complete table; no hidden inputs. -/
def docTabThenLegacy : String :=
  "id=\"currencyTab4\" promo currency-tabs__item " ++ docLegacy

/-- Hidden-input markers with values distinct from the table's. -/
def hiddenInputsStr : String :=
  "<input type=\"hidden\" name=\"usd2\" value=\"70.5\">" ++
  "<input type=\"hidden\" name=\"eur2\" value=\"85\">" ++
  "<input type=\"hidden\" name=\"jpy2\" value=\"49.9\">"

/-- `docTabThenLegacy` with hidden inputs appended. -/
def docTabLegacyHidden : String := docTabThenLegacy ++ hiddenInputsStr

/-- The snapshot the hidden inputs of `hiddenInputsStr` yield
(JPY 49.9 per 100 ¥ ↦ 0.499). -/
def ratesHidden : CurrencyRates :=
  { JPY := some (.num (499/1000)), USD := some (.num (141/2)),
    EUR := some (.num 85), RUB := some (.num 1) }

/-- Hidden-only document with the JPY hidden value 53.2 (per 100 ¥). -/
def docHiddenJpy532 : String :=
  "<input name=\"usd2\" value=\"80\"><input name=\"eur2\" value=\"90\">" ++
  "<input name=\"jpy2\" value=\"53.2\">"

/-- Hidden-only document with the JPY hidden value 0.53 (per 1 ¥). -/
def docHiddenJpy053 : String :=
  "<input name=\"usd2\" value=\"80\"><input name=\"eur2\" value=\"90\">" ++
  "<input name=\"jpy2\" value=\"0.53\">"

/-- The snapshot `docHiddenJpy532` yields (53.2 is scaled down to 0.532). -/
def ratesHidden532 : CurrencyRates :=
  { JPY := some (.num (133/250)), USD := some (.num 80),
    EUR := some (.num 90), RUB := some (.num 1) }

/-- A concrete complete snapshot (JPY 0.5, USD 80, EUR 90, RUB 1). -/
def ratesSample : CurrencyRates :=
  { JPY := some (.num (1/2)), USD := some (.num 80),
    EUR := some (.num 90), RUB := some (.num 1) }

/-- A concrete supported-bracket vehicle description. -/
def inputSample : CalculationInput :=
  { price := 10000, currency := .USD, age := .threeTo5,
    engineType := .ICE, engineVolume := 1000, horsepower := 140 }

/-- The delivery configuration with the repository's documented defaults. -/
def cfgSample : DeliveryConfigDoc :=
  { jpExpensesYen := 241000, freightUsd := 300,
    ruProcessingMinRub := 60000, ruProcessingMaxRub := 100000,
    companyFeeMinRub := 50000, companyFeeMaxRub := 100000 }

/-- The result `calculate` produces on the three samples above. -/
def resSample : CalculationResult :=
  { total := 1243969
    breakdown := { priceRub := 800000, dutyRub := 135000, dutyEur := 1500
                   feeRub := 4269, recyclingRub := 5200
                   deliveryTotalRub := 299500
                   deliveryDetails := { totalMin := 254500, totalMax := 344500
                                        jpExpensesRub := 120500
                                        freightRub := 24000
                                        ruProcessingMinRub := 60000
                                        ruProcessingMaxRub := 100000
                                        companyFeeMinRub := 50000
                                        companyFeeMaxRub := 100000 } } }

/-- An incomplete cached snapshot (only JPY present). -/
def cachedPartial : CurrencyRates :=
  { JPY := some (.num 1), USD := none, EUR := none, RUB := none }

/-- A snapshot whose JPY entry is present but zero. -/
def ratesZeroJpy : CurrencyRates :=
  { JPY := some (.num 0), USD := some (.num 80),
    EUR := some (.num 90), RUB := some (.num 1) }

/-! ## Helper lemmas -/

/-- A truthy `rates[code]` entry is a present, non-zero numeric value. -/
lemma truthy_elim {o : Option JSNum} (h : (!(o.elim true JSNum.falsy)) = true) :
    ∃ q : ℚ, o = some (.num q) ∧ (q == 0) = false := by
  match o with
  | none => simp [Option.elim] at h
  | some (.num q) =>
    refine ⟨q, rfl, ?_⟩
    simpa [Option.elim, JSNum.falsy] using h
  | some .nan => simp [Option.elim, JSNum.falsy] at h

/-- A complete snapshot has a present non-zero rate at every code. -/
lemma hasAll_get {r : CurrencyRates} (h : hasAll r = true) (c : SupportedCurrency) :
    ∃ q : ℚ, r.get c = some (.num q) ∧ (q == 0) = false := by
  unfold hasAll at h
  simp only [Bool.and_eq_true] at h
  obtain ⟨⟨⟨hJ, hU⟩, hE⟩, hR⟩ := h
  cases c with
  | JPY => exact truthy_elim hJ
  | USD => exact truthy_elim hU
  | EUR => exact truthy_elim hE
  | RUB => exact truthy_elim hR

/-- `convertToRub` on a present non-zero rate multiplies by it. -/
lemma convertToRub_ok {rates : CurrencyRates} {c : SupportedCurrency} {q : ℚ}
    (h : rates.get c = some (.num q)) (h0 : (q == 0) = false) (a : ℚ) :
    convertToRub a c rates = .ok (a * q) := by
  unfold convertToRub
  rw [h]
  simp [h0]

/-! ## Claims about the tariff calculator -/

/-- C2: the customs-fee step function is monotonically non-decreasing, each
bracket boundary maps to its own bracket's fee (not the next one up), and
values above 10 000 000 give 93 965. -/
theorem customsFee_monotone_boundaries :
    (∀ a b : ℚ, a ≤ b → calcCustomsFee a ≤ calcCustomsFee b) ∧
    calcCustomsFee 200000 = 1067 ∧ calcCustomsFee 450000 = 2134 ∧
    calcCustomsFee 1200000 = 4269 ∧ calcCustomsFee 2700000 = 11746 ∧
    calcCustomsFee 5000000 = 23491 ∧ calcCustomsFee 10000000 = 46982 ∧
    (∀ v : ℚ, 10000000 < v → calcCustomsFee v = 93965) := by
  refine ⟨?_, by norm_num [calcCustomsFee], by norm_num [calcCustomsFee],
    by norm_num [calcCustomsFee], by norm_num [calcCustomsFee],
    by norm_num [calcCustomsFee], by norm_num [calcCustomsFee], ?_⟩
  · intro a b hab
    unfold calcCustomsFee
    split_ifs <;> linarith
  · intro v hv
    unfold calcCustomsFee
    split_ifs <;> first | rfl | linarith

/-- Witness for C2: the theorem applied at the concrete pair 100 ≤ 300000
and at the concrete value 20000000 above the top boundary. -/
theorem customsFee_monotone_boundaries_witness :
    calcCustomsFee 100 ≤ calcCustomsFee 300000 ∧ calcCustomsFee 20000000 = 93965 :=
  ⟨customsFee_monotone_boundaries.1 100 300000 (by norm_num),
   customsFee_monotone_boundaries.2.2.2.2.2.2.2 20000000 (by norm_num)⟩

/-- The six-bucket duty coefficient table exactly as the spec words it
(refinement counterpart of `calcDutyEur`). -/
def dutyCoefSpec (v : ℚ) : ℚ :=
  if v ≤ 1000 then 1.5
  else if v ≤ 1500 then 1.7
  else if v ≤ 1800 then 2.5
  else if v ≤ 2300 then 2.7
  else if v ≤ 3000 then 3.0
  else 3.6

/-- C3: for positive displacement the duty in origin tariff currency is the
six-bucket coefficient times the displacement (1000 cm³ ↦ 1500), and in a
successful `calculate` the reported EUR duty is `calcDutyEur` of the input
displacement, converted to the reference currency via `convertToRub` at the
EUR rate. -/
theorem duty_by_displacement :
    (∀ v : ℚ, 0 < v → calcDutyEur v = dutyCoefSpec v * v) ∧
    calcDutyEur 1000 = 1500 ∧
    (∀ input rates cfg res, calculate input rates cfg = .ok res →
      res.breakdown.dutyEur = calcDutyEur input.engineVolume ∧
      convertToRub res.breakdown.dutyEur .EUR rates = .ok res.breakdown.dutyRub) := by
  refine ⟨?_, by norm_num [calcDutyEur], ?_⟩
  · intro v _
    unfold calcDutyEur dutyCoefSpec
    split_ifs <;> rfl
  · intro input rates cfg res h
    unfold calculate at h
    split at h
    · exact absurd h (by simp)
    · split at h
      · exact absurd h (by simp)
      · rename_i priceRub hPrice
        split at h
        · exact absurd h (by simp)
        · rename_i dutyRub hDuty
          split at h
          · exact absurd h (by simp)
          · rename_i details hDetails
            rw [Except.ok.injEq] at h
            subst h
            exact ⟨rfl, hDuty⟩

set_option maxRecDepth 100000 in
/-- Witness for C3: the table applied at the concrete displacement 1000,
and the `calculate` link applied at the concrete sample computation. -/
theorem duty_by_displacement_witness :
    calcDutyEur 1000 = dutyCoefSpec 1000 * 1000 ∧
    (resSample.breakdown.dutyEur = calcDutyEur inputSample.engineVolume ∧
     convertToRub resSample.breakdown.dutyEur .EUR ratesSample =
       .ok resSample.breakdown.dutyRub) :=
  ⟨duty_by_displacement.1 1000 (by norm_num),
   duty_by_displacement.2.2 inputSample ratesSample cfgSample resSample
     (by with_unfolding_all rfl)⟩

/-- C4: under the supported bracket (representative age 4) the recycling
fee is the fixed 5200 for horsepower ≤ 160 regardless of displacement,
`round(20000 × 62.2)` for horsepower > 160 with displacement ≤ 2000 cm³,
the same default for every other combination, and `calculate` computes its
recycling fee through exactly this function. -/
theorem recycling_fee_supported_bracket :
    (∀ hp vol : ℚ, hp ≤ 160 →
      calculateUtilFee { ageYears := ageCategoryToYears .threeTo5, powerHp := hp,
                         engineVolumeCc := vol, personalUse := true } = 5200) ∧
    (∀ hp vol : ℚ, 160 < hp → vol ≤ 2000 →
      calculateUtilFee { ageYears := ageCategoryToYears .threeTo5, powerHp := hp,
                         engineVolumeCc := vol, personalUse := true } =
        (jsRound (BASE_UTILIZATION * 62.2) : ℚ)) ∧
    (∀ hp vol : ℚ, 160 < hp → 2000 < vol →
      calculateUtilFee { ageYears := ageCategoryToYears .threeTo5, powerHp := hp,
                         engineVolumeCc := vol, personalUse := true } =
        (jsRound (BASE_UTILIZATION * 62.2) : ℚ)) ∧
    (jsRound (BASE_UTILIZATION * 62.2) : ℚ) = 1244000 ∧
    (∀ input rates cfg res, calculate input rates cfg = .ok res →
      input.age = .threeTo5 ∧
      res.breakdown.recyclingRub = calculateUtilFee
        { ageYears := ageCategoryToYears .threeTo5, powerHp := input.horsepower,
          engineVolumeCc := input.engineVolume, personalUse := true }) := by
  refine ⟨?_, ?_, ?_, by with_unfolding_all rfl, ?_⟩
  · intro hp vol h
    norm_num [calculateUtilFee, ageCategoryToYears, h]
  · intro hp vol h1 h2
    norm_num [calculateUtilFee, ageCategoryToYears, not_le.mpr h1, h2]
  · intro hp vol h1 h2
    norm_num [calculateUtilFee, ageCategoryToYears, not_le.mpr h1, not_le.mpr h2]
  · intro input rates cfg res h
    unfold calculate at h
    split at h
    · exact absurd h (by simp)
    · rename_i hage
      have hage' : input.age = .threeTo5 := not_not.mp hage
      split at h
      · exact absurd h (by simp)
      · split at h
        · exact absurd h (by simp)
        · split at h
          · exact absurd h (by simp)
          · rw [Except.ok.injEq] at h
            subst h
            refine ⟨hage', ?_⟩
            rw [hage']

set_option maxRecDepth 100000 in
/-- Witness for C4: the theorem applied at horsepower 140 / displacement
1000, at 200 hp / 1800 cm³ and 200 hp / 2500 cm³, and the `calculate` link
at the concrete sample computation. -/
theorem recycling_fee_supported_bracket_witness :
    calculateUtilFee { ageYears := ageCategoryToYears .threeTo5, powerHp := 140,
                       engineVolumeCc := 1000, personalUse := true } = 5200 ∧
    calculateUtilFee { ageYears := ageCategoryToYears .threeTo5, powerHp := 200,
                       engineVolumeCc := 1800, personalUse := true } =
      (jsRound (BASE_UTILIZATION * 62.2) : ℚ) ∧
    calculateUtilFee { ageYears := ageCategoryToYears .threeTo5, powerHp := 200,
                       engineVolumeCc := 2500, personalUse := true } =
      (jsRound (BASE_UTILIZATION * 62.2) : ℚ) ∧
    (inputSample.age = .threeTo5 ∧
     resSample.breakdown.recyclingRub = calculateUtilFee
       { ageYears := ageCategoryToYears .threeTo5,
         powerHp := inputSample.horsepower,
         engineVolumeCc := inputSample.engineVolume, personalUse := true }) :=
  ⟨recycling_fee_supported_bracket.1 140 1000 (by norm_num),
   recycling_fee_supported_bracket.2.1 200 1800 (by norm_num) (by norm_num),
   recycling_fee_supported_bracket.2.2.1 200 2500 (by norm_num) (by norm_num),
   recycling_fee_supported_bracket.2.2.2.2 inputSample ratesSample cfgSample
     resSample (by with_unfolding_all rfl)⟩

/-- C1: for every vehicle in the supported bracket, complete snapshot and
delivery configuration, `calculate` succeeds and its total is
converted price + converted duty + customs fee + recycling fee + the
midpoint of the delivery range, whose bounds are the converted origin
expense + converted freight + the respective processing/service bounds. -/
theorem calculate_total_composition (input : CalculationInput)
    (rates : CurrencyRates) (cfg : DeliveryConfigDoc)
    (h1 : input.age = .threeTo5) (h2 : hasAll rates = true) :
    ∃ res : CalculationResult,
      calculate input rates cfg = .ok res ∧
      convertToRub input.price input.currency rates = .ok res.breakdown.priceRub ∧
      convertToRub (calcDutyEur input.engineVolume) .EUR rates = .ok res.breakdown.dutyRub ∧
      res.breakdown.feeRub = calcCustomsFee res.breakdown.priceRub ∧
      res.breakdown.recyclingRub = calculateUtilFee
        { ageYears := ageCategoryToYears input.age, powerHp := input.horsepower,
          engineVolumeCc := input.engineVolume, personalUse := true } ∧
      convertToRub cfg.jpExpensesYen .JPY rates =
        .ok res.breakdown.deliveryDetails.jpExpensesRub ∧
      convertToRub cfg.freightUsd .USD rates =
        .ok res.breakdown.deliveryDetails.freightRub ∧
      res.breakdown.deliveryDetails.totalMin =
        res.breakdown.deliveryDetails.jpExpensesRub +
        res.breakdown.deliveryDetails.freightRub +
        cfg.ruProcessingMinRub + cfg.companyFeeMinRub ∧
      res.breakdown.deliveryDetails.totalMax =
        res.breakdown.deliveryDetails.jpExpensesRub +
        res.breakdown.deliveryDetails.freightRub +
        cfg.ruProcessingMaxRub + cfg.companyFeeMaxRub ∧
      res.breakdown.deliveryTotalRub =
        (res.breakdown.deliveryDetails.totalMin +
         res.breakdown.deliveryDetails.totalMax) / 2 ∧
      res.total = res.breakdown.priceRub + res.breakdown.dutyRub +
        res.breakdown.feeRub + res.breakdown.recyclingRub +
        res.breakdown.deliveryTotalRub := by
  obtain ⟨qP, hP, hP0⟩ := hasAll_get h2 input.currency
  obtain ⟨qE, hE, hE0⟩ := hasAll_get h2 .EUR
  obtain ⟨qJ, hJ, hJ0⟩ := hasAll_get h2 .JPY
  obtain ⟨qU, hU, hU0⟩ := hasAll_get h2 .USD
  have cP := convertToRub_ok hP hP0 input.price
  have cE := convertToRub_ok hE hE0 (calcDutyEur input.engineVolume)
  have cJ := convertToRub_ok hJ hJ0 cfg.jpExpensesYen
  have cU := convertToRub_ok hU hU0 cfg.freightUsd
  have hDel : calcDelivery cfg rates = .ok
      { totalMin := cfg.jpExpensesYen * qJ + cfg.freightUsd * qU +
                    cfg.ruProcessingMinRub + cfg.companyFeeMinRub
        totalMax := cfg.jpExpensesYen * qJ + cfg.freightUsd * qU +
                    cfg.ruProcessingMaxRub + cfg.companyFeeMaxRub
        jpExpensesRub := cfg.jpExpensesYen * qJ
        freightRub := cfg.freightUsd * qU
        ruProcessingMinRub := cfg.ruProcessingMinRub
        ruProcessingMaxRub := cfg.ruProcessingMaxRub
        companyFeeMinRub := cfg.companyFeeMinRub
        companyFeeMaxRub := cfg.companyFeeMaxRub } := by
    simp only [calcDelivery, cJ, cU]
  unfold calculate
  rw [if_neg (by simp [h1])]
  simp only [cP, cE, hDel]
  exact ⟨_, rfl, rfl, rfl, rfl, rfl, cJ, cU, rfl, rfl, rfl, rfl⟩

/-- Witness for C1: the theorem applied at the concrete sample inputs. -/
theorem calculate_total_composition_witness :
    ∃ res : CalculationResult,
      calculate inputSample ratesSample cfgSample = .ok res ∧
      convertToRub inputSample.price inputSample.currency ratesSample =
        .ok res.breakdown.priceRub ∧
      convertToRub (calcDutyEur inputSample.engineVolume) .EUR ratesSample =
        .ok res.breakdown.dutyRub ∧
      res.breakdown.feeRub = calcCustomsFee res.breakdown.priceRub ∧
      res.breakdown.recyclingRub = calculateUtilFee
        { ageYears := ageCategoryToYears inputSample.age,
          powerHp := inputSample.horsepower,
          engineVolumeCc := inputSample.engineVolume, personalUse := true } ∧
      convertToRub cfgSample.jpExpensesYen .JPY ratesSample =
        .ok res.breakdown.deliveryDetails.jpExpensesRub ∧
      convertToRub cfgSample.freightUsd .USD ratesSample =
        .ok res.breakdown.deliveryDetails.freightRub ∧
      res.breakdown.deliveryDetails.totalMin =
        res.breakdown.deliveryDetails.jpExpensesRub +
        res.breakdown.deliveryDetails.freightRub +
        cfgSample.ruProcessingMinRub + cfgSample.companyFeeMinRub ∧
      res.breakdown.deliveryDetails.totalMax =
        res.breakdown.deliveryDetails.jpExpensesRub +
        res.breakdown.deliveryDetails.freightRub +
        cfgSample.ruProcessingMaxRub + cfgSample.companyFeeMaxRub ∧
      res.breakdown.deliveryTotalRub =
        (res.breakdown.deliveryDetails.totalMin +
         res.breakdown.deliveryDetails.totalMax) / 2 ∧
      res.total = res.breakdown.priceRub + res.breakdown.dutyRub +
        res.breakdown.feeRub + res.breakdown.recyclingRub +
        res.breakdown.deliveryTotalRub :=
  calculate_total_composition inputSample ratesSample cfgSample rfl
    (by with_unfolding_all rfl)

/-! ## Helper lemmas about the rate resolver -/

/-- Dividing a non-zero rational by 100 stays non-zero (Bool form). -/
lemma div100_beq_zero {q : ℚ} (h : (q == 0) = false) :
    ((q / 100 : ℚ) == 0) = false := by
  rw [beq_eq_false_iff_ne] at h ⊢
  exact div_ne_zero h (by norm_num)

/-- Unfolding equation for `JSNum.falsy` on a numeric value. -/
lemma falsy_num (q : ℚ) : JSNum.falsy (.num q) = (q == 0) := rfl

/-- `1` is a truthy rate value. -/
lemma one_beq_zero : ((1 : ℚ) == 0) = false := by
  rw [beq_eq_false_iff_ne]
  norm_num

/-- Any snapshot produced by the hidden-input strategy is complete. -/
lemma parseHiddenInputs_hasAll {html : String} {r : CurrencyRates}
    (h : parseHiddenInputs html = some r) : hasAll r = true := by
  unfold parseHiddenInputs at h
  split at h
  · rename_i u e j hequ heqe heqj
    split at h
    · exact absurd h (by simp)
    · rename_i hguard
      rw [Option.some.injEq] at h
      subst h
      simp only [Bool.or_eq_true, not_or, Bool.not_eq_true] at hguard
      obtain ⟨⟨hu, he⟩, hj⟩ := hguard
      cases j with
      | nan => simp [JSNum.falsy] at hj
      | num q =>
        have hq : ((q : ℚ) == 0) = false := by simpa [falsy_num] using hj
        by_cases h5 : q > 5
        · simp [hasAll, Option.elim, h5, hu, he, falsy_num, one_beq_zero,
                div100_beq_zero hq]
        · simp [hasAll, Option.elim, h5, hu, he, falsy_num, one_beq_zero, hq]
  · exact absurd h (by simp)

/-- Any snapshot returned by the hidden-input fall-through is complete. -/
lemma atbHiddenFallback_hasAll {html : String} {r : CurrencyRates}
    (h : atbHiddenFallback html = .ok r) : hasAll r = true := by
  unfold atbHiddenFallback at h
  split at h
  · rename_i hidden hh
    rw [Except.ok.injEq] at h
    subst h
    exact parseHiddenInputs_hasAll hh
  · exact absurd h (by simp)

/-- Any snapshot `parseAtbRates` succeeds with is complete: the §3
invariant that only complete snapshots are ever persisted or returned
fresh. -/
lemma parseAtbRates_hasAll {html : String} {r : CurrencyRates}
    (h : parseAtbRates html = .ok r) : hasAll r = true := by
  unfold parseAtbRates at h
  split at h
  · rename_i u e j hequ heqe heqj
    split at h
    · exact atbHiddenFallback_hasAll h
    · rename_i hguard
      rw [Except.ok.injEq] at h
      subst h
      simp only [Bool.or_eq_true, not_or] at hguard
      obtain ⟨⟨hu, he⟩, hj⟩ := hguard
      rw [Bool.not_eq_true] at hu he hj
      simp [hasAll, Option.elim, falsy_num, hu, he, one_beq_zero,
            div100_beq_zero hj]
  · exact atbHiddenFallback_hasAll h

/-- A `getRates` fetch tail that performed the cache upsert did so with a
freshly parsed snapshot, which it also returns and stores. -/
lemma getRatesFetch_wrote {c₀ : Option CurrencyRates} {html : String}
    (hw : (getRatesFetch c₀ (.success html)).wrote = true) :
    ∃ rates, parseAtbRates html = .ok rates ∧
      getRatesFetch c₀ (.success html) =
        { result := .ok rates, cacheAfter := some rates,
          fetched := true, wrote := true } := by
  cases hp : parseAtbRates html with
  | ok rates =>
    refine ⟨rates, rfl, ?_⟩
    unfold getRatesFetch
    simp [hp]
  | error e =>
    exfalso
    unfold getRatesFetch at hw
    cases c₀ <;> simp [hp] at hw

/-! ## Claims about the rate resolver -/

/-- C5: if a call to `getRates` succeeds via a network fetch and performs
the cache upsert, then a second call on the same date against the
persisted cache returns the identical snapshot and never reaches the fetch
path, whatever the network would do. -/
theorem getRates_second_call_cached (c₀ : Option CurrencyRates)
    (html : String) (r : CurrencyRates) (f₂ : FetchOutcome)
    (hw : (getRates c₀ (.success html)).wrote = true)
    (hr : (getRates c₀ (.success html)).result = .ok r) :
    (getRates c₀ (.success html)).cacheAfter = some r ∧
    getRates (some r) f₂ =
      { result := .ok r, cacheAfter := some r,
        fetched := false, wrote := false } := by
  have hfetch : (getRatesFetch c₀ (.success html)).wrote = true ∧
      getRates c₀ (.success html) = getRatesFetch c₀ (.success html) := by
    cases c₀ with
    | none => exact ⟨hw, rfl⟩
    | some c =>
      by_cases hc : hasAll (mapToObject c) = true
      · have hfalse : (getRates (some c) (.success html)).wrote = false := by
          simp only [getRates]
          rw [if_pos hc]
        rw [hfalse] at hw
        exact absurd hw (by simp)
      · have hgg : getRates (some c) (.success html) =
            getRatesFetch (some c) (.success html) := by
          simp only [getRates]
          rw [if_neg hc]
        rw [hgg] at hw
        exact ⟨hw, hgg⟩
  obtain ⟨rates, hp, heq⟩ := getRatesFetch_wrote hfetch.1
  have hresult := hr
  rw [hfetch.2, heq] at hresult
  simp only [Except.ok.injEq] at hresult
  rw [← hresult]
  constructor
  · rw [hfetch.2, heq]
  · have hcomplete : hasAll (mapToObject rates) = true := parseAtbRates_hasAll hp
    simp only [getRates]
    rw [if_pos hcomplete]
    rfl

set_option maxRecDepth 100000 in
/-- Witness for C5: first call with an empty cache on the concrete document
succeeds and persists; the second call returns the same snapshot without
fetching, even though the network would now fail. -/
theorem getRates_second_call_cached_witness :
    (getRates none (.success docGood)).cacheAfter = some ratesGood ∧
    getRates (some ratesGood) (.failure "boom") =
      { result := .ok ratesGood, cacheAfter := some ratesGood,
        fetched := false, wrote := false } :=
  getRates_second_call_cached none docGood ratesGood (.failure "boom")
    (by with_unfolding_all rfl) (by with_unfolding_all rfl)

/-- C6: when the fetch succeeds but every extraction strategy fails, a
stored snapshot for today — even one the cache-hit check rejected as
incomplete — is returned, and with no stored snapshot the parse failure
propagates. -/
theorem getRates_parse_failure_fallback (cached : CurrencyRates)
    (html : String) (e : String) (hp : parseAtbRates html = .error e) :
    (getRates (some cached) (.success html)).result = .ok (mapToObject cached) ∧
    getRates none (.success html) =
      { result := .error e, cacheAfter := none,
        fetched := true, wrote := false } := by
  constructor
  · simp only [getRates]
    by_cases hc : hasAll (mapToObject cached) = true
    · rw [if_pos hc]
    · rw [if_neg hc]
      simp only [getRatesFetch]
      simp [hp]
  · simp only [getRates, getRatesFetch]
    simp [hp]

set_option maxRecDepth 100000 in
/-- Witness for C6: both branches at concrete inputs — the incomplete
cached snapshot is returned on a parse failure over an unparseable
document, and with no cache the failure propagates. -/
theorem getRates_parse_failure_fallback_witness :
    (getRates (some cachedPartial) (.success "nonsense")).result =
      .ok (mapToObject cachedPartial) ∧
    getRates none (.success "nonsense") =
      { result := .error "ATB transfer rates not found or malformed",
        cacheAfter := none, fetched := true, wrote := false } :=
  getRates_parse_failure_fallback cachedPartial "nonsense"
    "ATB transfer rates not found or malformed" (by with_unfolding_all rfl)

set_option maxRecDepth 100000 in
/-- Counterexample to C7: `docTwoTabs` has a later `currencyTab4`
occurrence followed by the complete table (its suffix is `docGood`, which
parses on its own), yet the primary strategy — anchored to the first
occurrence of the label — extracts nothing and the whole parse throws. -/
theorem primary_label_occurrence_counterexample :
    parseAtbRates docGood = .ok ratesGood ∧
    parseAtbRates docTwoTabs =
      .error "ATB transfer rates not found or malformed" :=
  ⟨by with_unfolding_all rfl, by with_unfolding_all rfl⟩

set_option maxRecDepth 100000 in
/-- C7 amended: the primary strategy slices from the *first* occurrence of
the label to the next tab marker; a table after the first occurrence is
extracted (sell column), but a table under a later occurrence of the
label, cut off by an intervening tab marker, is missed. -/
theorem primary_label_first_occurrence :
    sliceTab docTwoTabs "currencyTab4" = "id=\"currencyTab4\" promo " ∧
    parseAtbRates docGood = .ok ratesGood ∧
    parseAtbRates docTwoTabs =
      .error "ATB transfer rates not found or malformed" :=
  ⟨by with_unfolding_all rfl, by with_unfolding_all rfl,
   by with_unfolding_all rfl⟩

set_option maxRecDepth 100000 in
/-- Counterexample to C8: a JPY hidden value of 53.2 *is* scale-corrected
(divided by 100, stored as 0.532 = 133/250, not kept at 53.2 = 266/5), and
a value of 0.53 is kept unchanged (not multiplied by 100 to 53). -/
theorem hidden_jpy_scale_counterexample :
    (parseHiddenInputs docHiddenJpy532).map CurrencyRates.JPY =
      some (some (.num (133/250))) ∧
    ¬ (parseHiddenInputs docHiddenJpy532).map CurrencyRates.JPY =
      some (some (.num (266/5))) ∧
    (parseHiddenInputs docHiddenJpy053).map CurrencyRates.JPY =
      some (some (.num (53/100))) ∧
    ¬ (parseHiddenInputs docHiddenJpy053).map CurrencyRates.JPY =
      some (some (.num 53)) := by
  refine ⟨by with_unfolding_all rfl, ?_, by with_unfolding_all rfl, ?_⟩
  · intro hcl
    rw [show (parseHiddenInputs docHiddenJpy532).map CurrencyRates.JPY =
        some (some (JSNum.num (133/250))) from by with_unfolding_all rfl] at hcl
    simp only [Option.some.injEq, JSNum.num.injEq] at hcl
    norm_num at hcl
  · intro hcl
    rw [show (parseHiddenInputs docHiddenJpy053).map CurrencyRates.JPY =
        some (some (JSNum.num (53/100))) from by with_unfolding_all rfl] at hcl
    simp only [Option.some.injEq, JSNum.num.injEq] at hcl
    norm_num at hcl

set_option maxRecDepth 100000 in
/-- C8 amended: the hidden-field JPY scale correction divides by 100 and is
applied exactly to values above the threshold 5 (per-100-¥ quotes are
normalised to per-¥): 53.2 ↦ 0.532, while 0.53 is left unchanged. -/
theorem hidden_jpy_scale_direction :
    (parseHiddenInputs docHiddenJpy532).map CurrencyRates.JPY =
      some (some (.num (133/250))) ∧
    (parseHiddenInputs docHiddenJpy053).map CurrencyRates.JPY =
      some (some (.num (53/100))) ∧
    (∀ html rates, parseHiddenInputs html = some rates →
      ∃ j : ℚ,
        ((extractHidden html "jpy2").orElse fun _ =>
          extractHidden html "jpy1") = some (.num j) ∧
        rates.JPY = some (.num (if j > 5 then j / 100 else j))) := by
  refine ⟨by with_unfolding_all rfl, by with_unfolding_all rfl, ?_⟩
  intro html rates h
  unfold parseHiddenInputs at h
  split at h
  · rename_i u e j hequ heqe heqj
    split at h
    · exact absurd h (by simp)
    · rename_i hguard
      rw [Option.some.injEq] at h
      subst h
      simp only [Bool.or_eq_true, not_or, Bool.not_eq_true] at hguard
      obtain ⟨⟨hu, he⟩, hj⟩ := hguard
      cases j with
      | nan => simp [JSNum.falsy] at hj
      | num q =>
        refine ⟨q, heqj, ?_⟩
        by_cases h5 : q > 5 <;> simp [h5]
  · exact absurd h (by simp)

set_option maxRecDepth 100000 in
/-- Witness for C8 (amended): the direction property applied to the
concrete document with the 53.2 hidden value. -/
theorem hidden_jpy_scale_direction_witness :
    ∃ j : ℚ,
      ((extractHidden docHiddenJpy532 "jpy2").orElse fun _ =>
        extractHidden docHiddenJpy532 "jpy1") = some (.num j) ∧
      ratesHidden532.JPY = some (.num (if j > 5 then j / 100 else j)) :=
  hidden_jpy_scale_direction.2.2 docHiddenJpy532 ratesHidden532
    (by with_unfolding_all rfl)

set_option maxRecDepth 100000 in
/-- Counterexample to C9: `docTabThenLegacy` has an empty primary-labelled
section and the complete table only under a legacy label (which parses on
its own, first conjunct), with no hidden fields; extraction throws instead
of succeeding through any secondary legacy-section strategy. -/
theorem secondary_legacy_counterexample :
    parseAtbRates docLegacy = .ok ratesGood ∧
    parseAtbRates docTabThenLegacy =
      .error "ATB transfer rates not found or malformed" :=
  ⟨by with_unfolding_all rfl, by with_unfolding_all rfl⟩

set_option maxRecDepth 100000 in
/-- C9 amended: there is no secondary legacy-label strategy.  When the
primary label is absent, `sliceTab` falls back to the whole document, so a
table under only the legacy label still succeeds via the primary strategy;
when the primary label is present but its slice has no table, the resolver
goes directly to the hidden-field strategy even if a legacy-labelled
complete table exists. -/
theorem secondary_legacy_fallback_behaviour :
    parseAtbRates docLegacy = .ok ratesGood ∧
    parseAtbRates docTabLegacyHidden = .ok ratesHidden :=
  ⟨by with_unfolding_all rfl, by with_unfolding_all rfl⟩

/-- C10: a supported code mapped to `0` (or `NaN`) behaves exactly like an
absent code: `convertToRub` throws the unsupported-currency error (never
returns a zero-rate product), the completeness check rejects the snapshot,
and every public operation is unchanged by deleting the entry. -/
theorem zero_rate_unsupported (rates : CurrencyRates) (c : SupportedCurrency)
    (hz : rates.get c = some (.num 0) ∨ rates.get c = some .nan ∨
          rates.get c = none) :
    (∀ a : ℚ, convertToRub a c rates =
      .error ("Unsupported currency " ++ c.code)) ∧
    hasAll rates = false ∧
    (∀ (a : ℚ) (x : SupportedCurrency),
      convertToRub a x rates = convertToRub a x (maskCode rates c)) := by
  refine ⟨?_, ?_, ?_⟩
  · intro a
    rcases hz with h | h | h <;> simp [convertToRub, h]
  · rcases hz with h | h | h <;> cases c <;>
      simp only [CurrencyRates.get] at h <;>
      simp [hasAll, h, Option.elim, JSNum.falsy]
  · intro a x
    cases c <;> cases x <;>
      rcases hz with h | h | h <;>
      simp only [CurrencyRates.get] at h <;>
      simp [convertToRub, maskCode, CurrencyRates.get, h]

/-- Witness for C10: the theorem applied to the concrete snapshot whose JPY
entry is present but zero. -/
theorem zero_rate_unsupported_witness :
    convertToRub 5 .JPY ratesZeroJpy =
      .error ("Unsupported currency " ++ SupportedCurrency.code .JPY) ∧
    hasAll ratesZeroJpy = false ∧
    convertToRub 5 .JPY ratesZeroJpy =
      convertToRub 5 .JPY (maskCode ratesZeroJpy .JPY) :=
  ⟨(zero_rate_unsupported ratesZeroJpy .JPY (Or.inl rfl)).1 5,
   (zero_rate_unsupported ratesZeroJpy .JPY (Or.inl rfl)).2.1,
   (zero_rate_unsupported ratesZeroJpy .JPY (Or.inl rfl)).2.2 5 .JPY⟩
